import Mathlib

/-!
Verification development for the xiapi crate: a shallow embedding of the
device-session state machine (src/camera.rs) and the strided frame-buffer
view (src/image.rs), with theorems about their stated properties.

Machine integers are modelled as `Nat` (all quantities involved are
unsigned in the source: u32 handles, u32 sizes, usize offsets); driver
return codes (`XI_RETURN`) are modelled as `Nat` with `XI_OK = 0`.
Pointers are modelled as `Nat` addresses with `0` playing the role of the
null pointer.
-/

set_option autoImplicit false

namespace Xiapi

/-- Driver success code `XI_RET::XI_OK`. -/
def XI_OK : Nat := 0

/-! ### Device session state machine (src/camera.rs)

A `Camera` is the Configurable session: it wraps exactly the device
handle.  An `AcquisitionBuffer` is the Streaming session: it wraps
exactly a `Camera`.  The fallible driver primitives
(`xiStartAcquisition`, `xiStopAcquisition`) are modelled by passing in
the return code the driver produces for the call. -/

/-- Embeds `struct Camera { device_handle: HANDLE }`. -/
structure Camera where
  device_handle : Nat
deriving DecidableEq, Repr

/-- Embeds `struct AcquisitionBuffer { camera: Camera }`: the Streaming
session exclusively owns the consumed Configurable session. -/
structure AcquisitionBuffer where
  camera : Camera
deriving DecidableEq, Repr

/-- Embeds `Camera::start_acquisition(self)`: calls
`xiStartAcquisition` (whose return code is the `err` argument of the
model); on `XI_OK` returns `AcquisitionBuffer { camera: self }`, else
returns `Err(err)`.  The consumed camera appears on the success side
only; the error side carries nothing but the code. -/
def Camera.start_acquisition (self : Camera) (err : Nat) :
    Except Nat AcquisitionBuffer :=
  if err = XI_OK then .ok { camera := self } else .error err

/-- Embeds `AcquisitionBuffer::stop_acquisition(self)`: calls
`xiStopAcquisition` (return code `err`); on `XI_OK` returns the embedded
`self.camera`, else returns `Err(err)`. -/
def AcquisitionBuffer.stop_acquisition (self : AcquisitionBuffer) (err : Nat) :
    Except Nat Camera :=
  if err = XI_OK then .ok self.camera else .error err

/-- Calls made against the driver, as far as the destructors are
concerned. -/
inductive DriverCall where
  | startAcquisition (handle : Nat)
  | stopAcquisition (handle : Nat)
  | closeDevice (handle : Nat)
deriving DecidableEq, Repr

/-- Embeds `impl Drop for Camera`: the destructor issues exactly one
driver call, `xiCloseDevice(self.device_handle)`. -/
def Camera.dropCalls (self : Camera) : List DriverCall :=
  [DriverCall.closeDevice self.device_handle]

/-- Driver calls issued when an `AcquisitionBuffer` goes out of scope.
The source declares NO `impl Drop for AcquisitionBuffer`; Rust's drop
glue therefore just drops the `camera` field, so the trace is exactly
`Camera`'s destructor trace. -/
def AcquisitionBuffer.dropCalls (self : AcquisitionBuffer) : List DriverCall :=
  self.camera.dropCalls

/-! ### Frame view (src/image.rs)

`XI_IMG` is the driver-owned frame header; the fields below are the ones
the safe accessors under verification read.  `elem_size` stands for
`size_of::<T>()` of the phantom pixel type `T` of `Image<'a, T>`. -/

/-- The fields of the driver frame header `XI_IMG` used by the frame
view: buffer pointer `bp` (0 = null), declared byte length `bp_size`,
`width`, `height`, per-row alignment padding `padding_x`, and declared
pixel format `frm`. -/
structure XI_IMG where
  bp : Nat
  bp_size : Nat
  width : Nat
  height : Nat
  padding_x : Nat
  frm : Nat
deriving DecidableEq, Repr

/-- Embeds `Image<'a, T>`; `elem_size` is `size_of::<T>()`. -/
structure Image where
  xi_img : XI_IMG
  elem_size : Nat
deriving DecidableEq, Repr

/-- Pixel-format constants of `xiapi_sys::XI_IMG_FORMAT` (bindgen of the
public C enum XI_IMG_FORMAT). -/
def XI_MONO8 : Nat := 0

/-- Format constant `XI_MONO16`. -/
def XI_MONO16 : Nat := 1

/-- Format constant `XI_RGB24`. -/
def XI_RGB24 : Nat := 2

/-- Format constant `XI_RGB32`. -/
def XI_RGB32 : Nat := 3

/-- Format constant `XI_RGB_PLANAR` (not in the channel lookup; falls to
the wildcard arm). -/
def XI_RGB_PLANAR : Nat := 4

/-- Format constant `XI_RAW8`. -/
def XI_RAW8 : Nat := 5

/-- Format constant `XI_RAW16`. -/
def XI_RAW16 : Nat := 6

/-- Embeds `Image::nb_channels`: the fixed lookup on `self.xi_img.frm`,
arms in source order, wildcard `_ => 0`. -/
def Image.nb_channels (self : Image) : Nat :=
  if self.xi_img.frm = XI_MONO8 then 1
  else if self.xi_img.frm = XI_MONO16 then 1
  else if self.xi_img.frm = XI_RAW8 then 1
  else if self.xi_img.frm = XI_RAW16 then 1
  else if self.xi_img.frm = XI_RGB24 then 3
  else if self.xi_img.frm = XI_RGB32 then 4
  else 0

/-- Embeds `Image::pixel(x, y)`, returning the address the reference
points at rather than the pointee: `None` on a null buffer pointer,
`None` on a failed bounds check, otherwise the address
`bp + stride*y + x*elem_size*nb_channels` with
`stride = width*elem_size*nb_channels + padding_x`.  The final null test
models `pixel_pointer.as_ref()`, which yields `None` for a null
pointer. -/
def Image.pixel (self : Image) (x y : Nat) : Option Nat :=
  let buffer := self.xi_img.bp
  if buffer = 0 then none
  else if x ≥ self.xi_img.width ∨ y ≥ self.xi_img.height then none
  else
    let nb := self.nb_channels
    let stride := self.xi_img.width * self.elem_size * nb + self.xi_img.padding_x
    let offset := stride * y + x * self.elem_size * nb
    let pixel_pointer := buffer + offset
    if pixel_pointer = 0 then none else some pixel_pointer

/-- Embeds the length of the slice returned by `Image::data`:
`bp_size / size_of::<T>()` when the driver reported a nonzero byte
length, `width * height * nb_channels` otherwise.  (`/` is truncating
division, as on `usize`; the source would panic on a zero divisor, so
theorems about the first branch assume `0 < elem_size`.) -/
def Image.data_len (self : Image) : Nat :=
  if self.xi_img.bp_size ≠ 0 then self.xi_img.bp_size / self.elem_size
  else self.xi_img.width * self.xi_img.height * self.nb_channels

/-! ### Region of interest (src/roi.rs, Camera::set_roi in src/camera.rs)

`Camera::set_roi` talks to the driver through the macro-generated
parameter accessors; the model keeps the four ROI parameters, the
driver-reported increments, and a per-call failure schedule, and records
the calls actually issued.  Rust's `%` panics on a zero right operand,
so the outcome type has an explicit panic case. -/

/-- Embeds `struct Roi` (src/roi.rs). -/
structure Roi where
  offset_x : Nat
  offset_y : Nat
  width : Nat
  height : Nat
deriving DecidableEq, Repr

/-- The four ROI parameters touched by `Camera::set_roi`. -/
inductive RoiParam where
  | width
  | height
  | offset_x
  | offset_y
deriving DecidableEq, Repr

/-- Driver interactions issued by `Camera::set_roi`: a parameter set
(`set_width`, `set_offset_x`, ...) or an increment query
(`width_increment`, ...). -/
inductive RoiCall where
  | set (p : RoiParam) (v : Nat)
  | get_increment (p : RoiParam)
deriving DecidableEq, Repr

/-- Driver model for `Camera::set_roi`: the four reported increments and
a failure schedule (`some e` = the call fails with code `e`, `none` =
the call succeeds). -/
structure RoiCam where
  width_inc : Nat
  height_inc : Nat
  offset_x_inc : Nat
  offset_y_inc : Nat
  fail_set : RoiParam → Nat → Option Nat
  fail_get_inc : RoiParam → Option Nat

/-- The increment the driver reports for a given ROI parameter. -/
def RoiCam.inc (cam : RoiCam) : RoiParam → Nat
  | .width => cam.width_inc
  | .height => cam.height_inc
  | .offset_x => cam.offset_x_inc
  | .offset_y => cam.offset_y_inc

/-- Outcome of a Rust computation that may panic or return a driver
error. -/
inductive Outcome (α : Type) where
  | panic
  | err (code : Nat)
  | ok (val : α)
deriving DecidableEq, Repr

/-- Embeds `Camera::set_roi`, returning the ordered list of driver
calls issued together with the outcome.  It mirrors the source line by
line: clear both offsets, then for width, height, offset_x, offset_y in
that order query the increment, round the requested value down with
`v - v % inc` (a panic when the reported increment is zero, as `%` on
`u32` panics), and apply it; finally return the actually applied ROI.
Each fallible call propagates its error (`?` in the source). -/
def set_roi (cam : RoiCam) (roi : Roi) : List RoiCall × Outcome Roi :=
  let t1 : List RoiCall := [.set .offset_x 0]
  match cam.fail_set .offset_x 0 with
  | some e => (t1, .err e)
  | none =>
    let t2 := t1 ++ [.set .offset_y 0]
    match cam.fail_set .offset_y 0 with
    | some e => (t2, .err e)
    | none =>
      let t3 := t2 ++ [.get_increment .width]
      match cam.fail_get_inc .width with
      | some e => (t3, .err e)
      | none =>
        if cam.width_inc = 0 then (t3, .panic)
        else
          let width := roi.width - roi.width % cam.width_inc
          let t4 := t3 ++ [.set .width width]
          match cam.fail_set .width width with
          | some e => (t4, .err e)
          | none =>
            let t5 := t4 ++ [.get_increment .height]
            match cam.fail_get_inc .height with
            | some e => (t5, .err e)
            | none =>
              if cam.height_inc = 0 then (t5, .panic)
              else
                let height := roi.height - roi.height % cam.height_inc
                let t6 := t5 ++ [.set .height height]
                match cam.fail_set .height height with
                | some e => (t6, .err e)
                | none =>
                  let t7 := t6 ++ [.get_increment .offset_x]
                  match cam.fail_get_inc .offset_x with
                  | some e => (t7, .err e)
                  | none =>
                    if cam.offset_x_inc = 0 then (t7, .panic)
                    else
                      let offset_x := roi.offset_x - roi.offset_x % cam.offset_x_inc
                      let t8 := t7 ++ [.set .offset_x offset_x]
                      match cam.fail_set .offset_x offset_x with
                      | some e => (t8, .err e)
                      | none =>
                        let t9 := t8 ++ [.get_increment .offset_y]
                        match cam.fail_get_inc .offset_y with
                        | some e => (t9, .err e)
                        | none =>
                          if cam.offset_y_inc = 0 then (t9, .panic)
                          else
                            let offset_y :=
                              roi.offset_y - roi.offset_y % cam.offset_y_inc
                            let t10 := t9 ++ [.set .offset_y offset_y]
                            match cam.fail_set .offset_y offset_y with
                            | some e => (t10, .err e)
                            | none =>
                              (t10, .ok { offset_x, offset_y, width, height })

/-! ### Counter read convenience (Camera::counter in src/camera.rs)

The device has a single counter-selector register shared by all counter
reads; the model keeps that register, the per-counter values, and a
failure schedule for the three primitives the sequence uses. -/

/-- Driver model for `Camera::counter`: the counter-selector register,
the value each counter currently holds, and the failure schedule of the
three primitives (`counter_selector`, `set_counter_selector`,
`counter_value`). -/
structure CounterCam where
  selector : Nat
  value_of : Nat → Int
  fail_get_selector : Option Nat
  fail_set_selector : Nat → Option Nat
  fail_get_value : Nat → Option Nat

/-- Embeds the generated getter `Camera::counter_selector`. -/
def CounterCam.counter_selector (cam : CounterCam) : Except Nat Nat :=
  match cam.fail_get_selector with
  | some e => .error e
  | none => .ok cam.selector

/-- Embeds the generated setter `Camera::set_counter_selector`: on
success the selector register takes the new value, on failure it is
unchanged. -/
def CounterCam.set_counter_selector (cam : CounterCam) (v : Nat) :
    CounterCam × Except Nat Unit :=
  match cam.fail_set_selector v with
  | some e => (cam, .error e)
  | none => ({ cam with selector := v }, .ok ())

/-- Embeds the generated getter `Camera::counter_value`: reads the value
of the currently selected counter. -/
def CounterCam.counter_value (cam : CounterCam) : Except Nat Int :=
  match cam.fail_get_value cam.selector with
  | some e => .error e
  | none => .ok (cam.value_of cam.selector)

/-- Embeds `Camera::counter(counter_selector)`: save the current
selector, select the target, read the value, restore the saved
selector; every step propagates its error with `?`. -/
def CounterCam.counter (cam : CounterCam) (target : Nat) :
    CounterCam × Except Nat Int :=
  match cam.counter_selector with
  | .error e => (cam, .error e)
  | .ok prev_selector =>
    match cam.set_counter_selector target with
    | (cam1, .error e) => (cam1, .error e)
    | (cam1, .ok _) =>
      match cam1.counter_value with
      | .error e => (cam1, .error e)
      | .ok result =>
        match cam1.set_counter_selector prev_selector with
        | (cam2, .error e) => (cam2, .error e)
        | (cam2, .ok _) => (cam2, .ok result)

/-! ### Live exposure update (AcquisitionBuffer::set_exposure)

A finite `f32` value is exactly a rational, so the argument is modelled
as `ℚ`; Rust's `as i32` cast on floats truncates toward zero and
saturates at the i32 bounds. -/

/-- A parameter write sent to the driver: either through
`xiSetParamInt` or through `xiSetParamFloat`. -/
inductive SentParam where
  | int (name : String) (value : Int)
  | float (name : String) (value : ℚ)
deriving DecidableEq, Repr

/-- Truncation toward zero on ℚ, the rounding used by Rust float-to-int
casts. -/
def ratTruncToward0 (q : ℚ) : Int :=
  if 0 ≤ q then ⌊q⌋ else -⌊-q⌋

/-- Semantics of Rust's `expr as i32` on a finite `f32` value: truncate
toward zero and saturate at the i32 bounds. -/
def f32_as_i32 (q : ℚ) : Int :=
  let t := ratTruncToward0 q
  if t < -(2 ^ 31) then -(2 ^ 31)
  else if 2 ^ 31 - 1 < t then 2 ^ 31 - 1
  else t

/-- Embeds `AcquisitionBuffer::set_exposure(exposure)`: issues
`xiSetParamInt(handle, "exposure: direct_update", exposure as i32)` —
the device handle paired with the parameter write that is sent. -/
def AcquisitionBuffer.set_exposure (self : AcquisitionBuffer) (exposure : ℚ) :
    Nat × SentParam :=
  (self.camera.device_handle,
   .int "exposure: direct_update" (f32_as_i32 exposure))

/-- Recognizer for the "end acquisition" driver call, used to state what
the destructor traces contain. -/
def DriverCall.is_stop : DriverCall → Bool
  | .stopAcquisition _ => true
  | _ => false

/-- C1: for every session-state transition, `Camera::start_acquisition`
on driver success returns an `AcquisitionBuffer` that exclusively owns
the consumed `Camera`; on driver failure both `start_acquisition` and
`AcquisitionBuffer::stop_acquisition` consume the source session and
return only the driver's error code; on success `stop_acquisition`
returns the embedded `Camera`. -/
theorem start_stop_one_way_commit (cam : Camera) (buf : AcquisitionBuffer)
    (err : Nat) :
    (err = XI_OK →
      cam.start_acquisition err = .ok { camera := cam } ∧
      buf.stop_acquisition err = .ok buf.camera) ∧
    (err ≠ XI_OK →
      cam.start_acquisition err = .error err ∧
      buf.stop_acquisition err = .error err) := by
  constructor <;> intro h <;>
    simp [Camera.start_acquisition, AcquisitionBuffer.stop_acquisition, h]

/-- Witness for C1 at concrete inputs: a success transition with code 0
and a failed transition with code 11. -/
theorem start_stop_one_way_commit_witness :
    Camera.start_acquisition ⟨7⟩ 0 = .ok ⟨⟨7⟩⟩ ∧
    AcquisitionBuffer.stop_acquisition ⟨⟨7⟩⟩ 0 = .ok ⟨7⟩ ∧
    Camera.start_acquisition ⟨7⟩ 11 = .error 11 ∧
    AcquisitionBuffer.stop_acquisition ⟨⟨7⟩⟩ 11 = .error 11 := by
  refine ⟨?_, ?_, ?_, ?_⟩
  · exact ((start_stop_one_way_commit ⟨7⟩ ⟨⟨7⟩⟩ 0).1 rfl).1
  · exact ((start_stop_one_way_commit ⟨7⟩ ⟨⟨7⟩⟩ 0).1 rfl).2
  · exact ((start_stop_one_way_commit ⟨7⟩ ⟨⟨7⟩⟩ 11).2 (by decide)).1
  · exact ((start_stop_one_way_commit ⟨7⟩ ⟨⟨7⟩⟩ 11).2 (by decide)).2

/-- C2 (code-level behaviour at the failing input): dropping an
`AcquisitionBuffer` without an explicit `stop_acquisition` issues only
`xiCloseDevice` — the trace contains no "end acquisition" call at all,
so the device handle is closed while still in streaming mode. -/
theorem drop_streaming_issues_no_end_acquisition (buf : AcquisitionBuffer) :
    buf.dropCalls = [DriverCall.closeDevice buf.camera.device_handle] ∧
    buf.dropCalls.all (fun c => ! c.is_stop) = true := by
  exact ⟨rfl, rfl⟩

/-- C3: `Image::pixel(x, y)` returns `None` exactly when the buffer
pointer is null or `x ≥ width` or `y ≥ height`; being a total function
into `Option`, it never panics, and in the `None` cases no address is
produced. -/
theorem pixel_none_iff (img : Image) (x y : Nat) :
    img.pixel x y = none ↔
      img.xi_img.bp = 0 ∨ img.xi_img.width ≤ x ∨ img.xi_img.height ≤ y := by
  by_cases hb : img.xi_img.bp = 0
  · simp [Image.pixel, hb]
  · by_cases hxy : img.xi_img.width ≤ x ∨ img.xi_img.height ≤ y
    · simp [Image.pixel, hb, hxy]
    · have hne :
        img.xi_img.bp +
          ((img.xi_img.width * img.elem_size * img.nb_channels +
              img.xi_img.padding_x) * y +
            x * img.elem_size * img.nb_channels) ≠ 0 := by
        intro hzero
        exact hb (Nat.eq_zero_of_add_eq_zero_right hzero)
      simp [Image.pixel, hb, hxy, hne]

/-- C4: for an image with a non-null buffer and in-bounds coordinates,
`pixel(x, y)` reads from the address
`base + y * (width * elem_size * channels + padding) + x * elem_size *
channels`. -/
theorem pixel_address (img : Image) (x y : Nat)
    (hb : img.xi_img.bp ≠ 0)
    (hx : x < img.xi_img.width) (hy : y < img.xi_img.height) :
    img.pixel x y =
      some (img.xi_img.bp +
        y * (img.xi_img.width * img.elem_size * img.nb_channels +
          img.xi_img.padding_x) +
        x * (img.elem_size * img.nb_channels)) := by
  have hxy : ¬ (img.xi_img.width ≤ x ∨ img.xi_img.height ≤ y) := by
    push_neg
    exact ⟨hx, hy⟩
  have hne :
      img.xi_img.bp +
        ((img.xi_img.width * img.elem_size * img.nb_channels +
            img.xi_img.padding_x) * y +
          x * img.elem_size * img.nb_channels) ≠ 0 := by
    intro hzero
    exact hb (Nat.eq_zero_of_add_eq_zero_right hzero)
  simp only [Image.pixel, hb, if_false, hxy, hne, ite_false]
  congr 1
  ring

/-- Witness for C4: a 4×3 image of 2-byte mono pixels with 5 bytes of
row padding at base address 100; the pixel at (2, 1) sits at
100 + 1·(4·2·1 + 5) + 2·2 = 117. -/
theorem pixel_address_witness :
    Image.pixel ⟨⟨100, 0, 4, 3, 5, 0⟩, 2⟩ 2 1 = some 117 := by
  have h := pixel_address ⟨⟨100, 0, 4, 3, 5, 0⟩, 2⟩ 2 1
    (by decide) (by decide) (by decide)
  exact h.trans (by decide)

/-- The driver-call trace and applied ROI of a `set_roi` run in which
every driver call succeeds and every reported increment is nonzero
(shared evaluation lemma). -/
lemma set_roi_ok (cam : RoiCam) (roi : Roi)
    (hset : ∀ p v, cam.fail_set p v = none)
    (hget : ∀ p, cam.fail_get_inc p = none)
    (hw : cam.width_inc ≠ 0) (hh : cam.height_inc ≠ 0)
    (hx : cam.offset_x_inc ≠ 0) (hy : cam.offset_y_inc ≠ 0) :
    set_roi cam roi =
      ([.set .offset_x 0, .set .offset_y 0,
        .get_increment .width,
        .set .width (roi.width - roi.width % cam.width_inc),
        .get_increment .height,
        .set .height (roi.height - roi.height % cam.height_inc),
        .get_increment .offset_x,
        .set .offset_x (roi.offset_x - roi.offset_x % cam.offset_x_inc),
        .get_increment .offset_y,
        .set .offset_y (roi.offset_y - roi.offset_y % cam.offset_y_inc)],
       .ok { offset_x := roi.offset_x - roi.offset_x % cam.offset_x_inc,
             offset_y := roi.offset_y - roi.offset_y % cam.offset_y_inc,
             width := roi.width - roi.width % cam.width_inc,
             height := roi.height - roi.height % cam.height_inc }) := by
  simp [set_roi, hset, hget, hw, hh, hx, hy]

/-- Rounding down to a multiple of `n` produces a multiple of `n`
(shared arithmetic lemma). -/
lemma round_down_mod (a n : Nat) : (a - a % n) % n = 0 := by
  have h : a - a % n = n * (a / n) := by
    have := Nat.mod_add_div a n
    omega
  rw [h, Nat.mul_mod_right]

/-- C5: when the driver calls succeed and the reported increments are
nonzero, `Camera::set_roi` issues exactly the sequence: clear offset_x
and offset_y to 0, query the width increment and apply the
rounded-down width, same for height, then for offset_x, then for
offset_y; it returns the actually applied (post-rounding) ROI. -/
theorem set_roi_sequence (cam : RoiCam) (roi : Roi)
    (hset : ∀ p v, cam.fail_set p v = none)
    (hget : ∀ p, cam.fail_get_inc p = none)
    (hw : cam.width_inc ≠ 0) (hh : cam.height_inc ≠ 0)
    (hx : cam.offset_x_inc ≠ 0) (hy : cam.offset_y_inc ≠ 0) :
    set_roi cam roi =
      ([.set .offset_x 0, .set .offset_y 0,
        .get_increment .width,
        .set .width (roi.width - roi.width % cam.width_inc),
        .get_increment .height,
        .set .height (roi.height - roi.height % cam.height_inc),
        .get_increment .offset_x,
        .set .offset_x (roi.offset_x - roi.offset_x % cam.offset_x_inc),
        .get_increment .offset_y,
        .set .offset_y (roi.offset_y - roi.offset_y % cam.offset_y_inc)],
       .ok { offset_x := roi.offset_x - roi.offset_x % cam.offset_x_inc,
             offset_y := roi.offset_y - roi.offset_y % cam.offset_y_inc,
             width := roi.width - roi.width % cam.width_inc,
             height := roi.height - roi.height % cam.height_inc }) :=
  set_roi_ok cam roi hset hget hw hh hx hy

/-- Witness for C5: increments (16, 2, 2, 2) and request
(100, 100, 100, 100) give the applied ROI (100, 100, 96, 100), which
differs from the request. -/
theorem set_roi_sequence_witness :
    set_roi
      { width_inc := 16, height_inc := 2, offset_x_inc := 2, offset_y_inc := 2,
        fail_set := fun _ _ => none, fail_get_inc := fun _ => none }
      { offset_x := 100, offset_y := 100, width := 100, height := 100 } =
      ([.set .offset_x 0, .set .offset_y 0,
        .get_increment .width, .set .width 96,
        .get_increment .height, .set .height 100,
        .get_increment .offset_x, .set .offset_x 100,
        .get_increment .offset_y, .set .offset_y 100],
       .ok { offset_x := 100, offset_y := 100, width := 96, height := 100 }) ∧
    (({ offset_x := 100, offset_y := 100, width := 96, height := 100 } : Roi) ==
      { offset_x := 100, offset_y := 100, width := 100, height := 100 }) = false := by
  constructor
  · exact (set_roi_sequence
      { width_inc := 16, height_inc := 2, offset_x_inc := 2, offset_y_inc := 2,
        fail_set := fun _ _ => none, fail_get_inc := fun _ => none }
      { offset_x := 100, offset_y := 100, width := 100, height := 100 }
      (fun _ _ => rfl) (fun _ => rfl)
      (by decide) (by decide) (by decide) (by decide)).trans (by decide)
  · decide

/-- C6: the slice returned by `Image::data` has length
`bp_size / elem_size` when the driver reports a nonzero byte length and
`width * height * nb_channels` otherwise; the channel count is the
fixed lookup (mono and raw 8/16-bit → 1, 24-bit color → 3, 32-bit
color → 4, anything else → 0), so an unrecognized format with no
reported byte length yields an empty view. -/
theorem data_len_spec (img : Image) (_he : 0 < img.elem_size) :
    (img.xi_img.bp_size ≠ 0 →
      img.data_len = img.xi_img.bp_size / img.elem_size) ∧
    (img.xi_img.bp_size = 0 →
      img.data_len =
        img.xi_img.width * img.xi_img.height * img.nb_channels) ∧
    ((img.xi_img.frm = XI_MONO8 ∨ img.xi_img.frm = XI_MONO16 ∨
        img.xi_img.frm = XI_RAW8 ∨ img.xi_img.frm = XI_RAW16) →
      img.nb_channels = 1) ∧
    (img.xi_img.frm = XI_RGB24 → img.nb_channels = 3) ∧
    (img.xi_img.frm = XI_RGB32 → img.nb_channels = 4) ∧
    (img.xi_img.frm ≠ XI_MONO8 → img.xi_img.frm ≠ XI_MONO16 →
      img.xi_img.frm ≠ XI_RAW8 → img.xi_img.frm ≠ XI_RAW16 →
      img.xi_img.frm ≠ XI_RGB24 → img.xi_img.frm ≠ XI_RGB32 →
      img.nb_channels = 0 ∧ (img.xi_img.bp_size = 0 → img.data_len = 0)) := by
  refine ⟨?_, ?_, ?_, ?_, ?_, ?_⟩
  · intro h
    simp [Image.data_len, h]
  · intro h
    simp [Image.data_len, h]
  · rintro (h | h | h | h) <;>
      simp [Image.nb_channels, h, XI_MONO8, XI_MONO16, XI_RAW8, XI_RAW16]
  · intro h
    simp [Image.nb_channels, h, XI_MONO8, XI_MONO16, XI_RAW8, XI_RAW16, XI_RGB24]
  · intro h
    simp [Image.nb_channels, h, XI_MONO8, XI_MONO16, XI_RAW8, XI_RAW16, XI_RGB24,
      XI_RGB32]
  · intro h1 h2 h3 h4 h5 h6
    have hnb : img.nb_channels = 0 := by
      simp [Image.nb_channels, h1, h2, h3, h4, h5, h6]
    refine ⟨hnb, fun h0 => ?_⟩
    simp [Image.data_len, h0, hnb]

/-- Witness for C6 at three concrete headers: a reported byte length of
10 with 2-byte elements (length 5), an unreported byte length with a
4×3 RGB24 frame (length 36), and an unreported byte length with an
unrecognized format 42 (length 0). -/
theorem data_len_spec_witness :
    Image.data_len ⟨⟨100, 10, 4, 3, 0, 0⟩, 2⟩ = 5 ∧
    Image.data_len ⟨⟨100, 0, 4, 3, 0, 2⟩, 1⟩ = 36 ∧
    Image.data_len ⟨⟨100, 0, 4, 3, 0, 42⟩, 1⟩ = 0 := by
  refine ⟨?_, ?_, ?_⟩
  · exact ((data_len_spec ⟨⟨100, 10, 4, 3, 0, 0⟩, 2⟩ (by decide)).1
      (by decide)).trans (by decide)
  · exact ((data_len_spec ⟨⟨100, 0, 4, 3, 0, 2⟩, 1⟩ (by decide)).2.1
      (by decide)).trans (by decide)
  · exact ((data_len_spec ⟨⟨100, 0, 4, 3, 0, 42⟩, 1⟩ (by decide)).2.2.2.2.2
      (by decide) (by decide) (by decide) (by decide) (by decide) (by decide)).2
      (by decide)

/-- A camera on which the driver accepts both selector writes but fails
the value read once counter 1 is selected: the concrete run that shows
`Camera::counter` does not restore the selector on an error return. -/
def counterexCam : CounterCam :=
  { selector := 0
    value_of := fun _ => 0
    fail_get_selector := none
    fail_set_selector := fun _ => none
    fail_get_value := fun s => if s = 1 then some 57 else none }

/-- C7 counterexample: on `counterexCam` (selector register 0), reading
counter 1 fails at the value read, `counter` returns the error, and the
selector register is left at 1 — not equal to its pre-call value 0. -/
theorem counter_leaves_selector_moved_on_error :
    (counterexCam.counter 1).1.selector = 1 ∧
    counterexCam.selector = 0 ∧
    (counterexCam.counter 1).2 = .error 57 ∧
    (((counterexCam.counter 1).1.selector == counterexCam.selector) = false) :=
  ⟨rfl, rfl, rfl, rfl⟩

/-- C7 as amended: whenever `Camera::counter(target)` returns
successfully, the device's counter-selector register equals its
pre-call value — the sequence saves the selected counter, selects the
target, reads its value, and restores the saved counter. -/
theorem counter_restores_selector_on_ok (cam : CounterCam) (target : Nat)
    (v : Int) (h : (cam.counter target).2 = .ok v) :
    (cam.counter target).1.selector = cam.selector := by
  cases hg : cam.fail_get_selector with
  | some e =>
    simp [CounterCam.counter, CounterCam.counter_selector, hg] at h
  | none =>
    cases hs1 : cam.fail_set_selector target with
    | some e =>
      simp [CounterCam.counter, CounterCam.counter_selector,
        CounterCam.set_counter_selector, hg, hs1] at h
    | none =>
      cases hv : cam.fail_get_value target with
      | some e =>
        simp [CounterCam.counter, CounterCam.counter_selector,
          CounterCam.set_counter_selector, CounterCam.counter_value,
          hg, hs1, hv] at h
      | none =>
        cases hs2 : cam.fail_set_selector cam.selector with
        | some e =>
          simp [CounterCam.counter, CounterCam.counter_selector,
            CounterCam.set_counter_selector, CounterCam.counter_value,
            hg, hs1, hv, hs2] at h
        | none =>
          simp [CounterCam.counter, CounterCam.counter_selector,
            CounterCam.set_counter_selector, CounterCam.counter_value,
            hg, hs1, hv, hs2]

/-- A camera on which every counter primitive succeeds; selector
register 3, every counter reading 5. -/
def okCam : CounterCam :=
  { selector := 3
    value_of := fun _ => 5
    fail_get_selector := none
    fail_set_selector := fun _ => none
    fail_get_value := fun _ => none }

/-- Witness for the amended C7: on `okCam` the read of counter 1
returns Ok and the selector register is back at 3 afterwards. -/
theorem counter_restores_selector_on_ok_witness :
    (okCam.counter 1).1.selector = 3 :=
  counter_restores_selector_on_ok okCam 1 5 rfl

/-- C8: `Camera::set_roi` is idempotent — when the driver calls succeed
and the reported increments are unchanged (and nonzero), the first call
applies some actual ROI and a second call requesting that same ROI
applies it unchanged, because rounding a value already rounded down to
a multiple of the increment leaves it as it is. -/
theorem set_roi_idempotent (cam : RoiCam) (roi : Roi)
    (hset : ∀ p v, cam.fail_set p v = none)
    (hget : ∀ p, cam.fail_get_inc p = none)
    (hw : cam.width_inc ≠ 0) (hh : cam.height_inc ≠ 0)
    (hx : cam.offset_x_inc ≠ 0) (hy : cam.offset_y_inc ≠ 0) :
    ∃ actual : Roi,
      (set_roi cam roi).2 = .ok actual ∧
      (set_roi cam actual).2 = .ok actual := by
  refine ⟨_, by rw [set_roi_ok cam roi hset hget hw hh hx hy], ?_⟩
  rw [set_roi_ok cam _ hset hget hw hh hx hy]
  simp only [Prod.snd]
  congr 1
  simp [round_down_mod]

/-- Witness for C8: with increments (16, 2, 2, 2), requesting
(100, 100, 100, 100) applies (100, 100, 96, 100), and requesting that
applied ROI again applies it unchanged. -/
theorem set_roi_idempotent_witness :
    ∃ actual : Roi,
      (set_roi
        { width_inc := 16, height_inc := 2, offset_x_inc := 2, offset_y_inc := 2,
          fail_set := fun _ _ => none, fail_get_inc := fun _ => none }
        { offset_x := 100, offset_y := 100, width := 100, height := 100 }).2 =
        .ok actual ∧
      (set_roi
        { width_inc := 16, height_inc := 2, offset_x_inc := 2, offset_y_inc := 2,
          fail_set := fun _ _ => none, fail_get_inc := fun _ => none }
        actual).2 = .ok actual :=
  set_roi_idempotent
    { width_inc := 16, height_inc := 2, offset_x_inc := 2, offset_y_inc := 2,
      fail_set := fun _ _ => none, fail_get_inc := fun _ => none }
    { offset_x := 100, offset_y := 100, width := 100, height := 100 }
    (fun _ _ => rfl) (fun _ => rfl)
    (by decide) (by decide) (by decide) (by decide)

/-- C9: with a driver whose calls all succeed, `Camera::set_roi`
panics (an unguarded `%` by zero) exactly when one of the four reported
increments is zero; equivalently it is total only when the width,
height, offset_x and offset_y increments are all nonzero, and a zero
increment produces a panic rather than a device error. -/
theorem set_roi_panics_iff_zero_increment (cam : RoiCam) (roi : Roi)
    (hset : ∀ p v, cam.fail_set p v = none)
    (hget : ∀ p, cam.fail_get_inc p = none) :
    (set_roi cam roi).2 = .panic ↔
      (cam.width_inc = 0 ∨ cam.height_inc = 0 ∨
        cam.offset_x_inc = 0 ∨ cam.offset_y_inc = 0) := by
  by_cases hw : cam.width_inc = 0
  · simp [set_roi, hset, hget, hw]
  · by_cases hh : cam.height_inc = 0
    · simp [set_roi, hset, hget, hw, hh]
    · by_cases hx : cam.offset_x_inc = 0
      · simp [set_roi, hset, hget, hw, hh, hx]
      · by_cases hy : cam.offset_y_inc = 0
        · simp [set_roi, hset, hget, hw, hh, hx, hy]
        · simp [set_roi, hset, hget, hw, hh, hx, hy]

/-- Witness for C9: a driver reporting a zero width increment makes
`set_roi` panic, and the all-nonzero driver of the C5 witness does
not. -/
theorem set_roi_panics_iff_zero_increment_witness :
    (set_roi
      { width_inc := 0, height_inc := 2, offset_x_inc := 2, offset_y_inc := 2,
        fail_set := fun _ _ => none, fail_get_inc := fun _ => none }
      { offset_x := 100, offset_y := 100, width := 100, height := 100 }).2 =
      .panic :=
  (set_roi_panics_iff_zero_increment
    { width_inc := 0, height_inc := 2, offset_x_inc := 2, offset_y_inc := 2,
      fail_set := fun _ _ => none, fail_get_inc := fun _ => none }
    { offset_x := 100, offset_y := 100, width := 100, height := 100 }
    (fun _ _ => rfl) (fun _ => rfl)).mpr (Or.inl rfl)

/-- C10: while streaming, `AcquisitionBuffer::set_exposure(v)` sends
the exposure through the integer parameter interface
(`xiSetParamInt`), and for any finite `v` whose truncation lies in the
i32 range the delivered value is the truncation of `v` toward zero;
the delivered value equals `v` exactly when `v` is an integer, so
fractional microseconds are silently discarded. -/
theorem set_exposure_truncates (buf : AcquisitionBuffer) (v : ℚ)
    (hlo : -(2 ^ 31) ≤ ratTruncToward0 v)
    (hhi : ratTruncToward0 v ≤ 2 ^ 31 - 1) :
    buf.set_exposure v =
      (buf.camera.device_handle,
        .int "exposure: direct_update" (ratTruncToward0 v)) ∧
    (((ratTruncToward0 v : ℚ) = v) ↔ ∃ n : ℤ, v = (n : ℚ)) := by
  constructor
  · have hcast : f32_as_i32 v = ratTruncToward0 v := by
      unfold f32_as_i32
      rw [if_neg (by omega), if_neg (by omega)]
    simp [AcquisitionBuffer.set_exposure, hcast]
  · constructor
    · intro h
      exact ⟨ratTruncToward0 v, h.symm⟩
    · rintro ⟨n, rfl⟩
      unfold ratTruncToward0
      by_cases hn : (0 : ℚ) ≤ (n : ℚ)
      · rw [if_pos hn, Int.floor_intCast]
      · rw [if_neg hn, show -((n : ℤ) : ℚ) = ((-n : ℤ) : ℚ) by push_cast; ring,
          Int.floor_intCast]
        push_cast
        ring

/-- Witness for C10: exposure 10000.5 on handle 2 is delivered as the
integer 10000 through the integer interface. -/
theorem set_exposure_truncates_witness :
    AcquisitionBuffer.set_exposure ⟨⟨2⟩⟩ ((20001 : ℚ) / 2) =
      (2, .int "exposure: direct_update" 10000) := by
  have h := (set_exposure_truncates ⟨⟨2⟩⟩ ((20001 : ℚ) / 2)
    (by norm_num [ratTruncToward0]) (by norm_num [ratTruncToward0])).1
  rw [h]
  norm_num [ratTruncToward0]

end Xiapi
